import Mathlib

/-!
Verification of the Encephalon client SDK's scan-tracking core.

The development shallowly embeds the repository's Python modules:

* `basic/scan.py` — request construction for the scan resource family, the
  blocking poll loop `wait_for_scan_completion`, and the progress pass-through
  `get_scan_progress`;
* `basic/{study,dicom,reports,webhooks,all_studies}.py` — the authorization
  header each function attaches to its request;
* `flows/create_scan_and_retrieve_inference_results_with_webhooks.py` — the
  webhook payload handler `handle_webhook_notification`.

Modelling conventions: the remote service is a function from requests to
either a typed HTTP error or a decoded response; the poll loop's remote is
indexed by the fetch number so that successive fetches may observe different
scan states.  Time is idealized discretely: a fetch takes zero time and a
sleep advances elapsed wall-clock time by exactly `poll_interval` seconds, so
the elapsed time read by the loop's deadline check equals the sum of the
sleeps performed so far.  Recursion is made structural with an explicit fuel
parameter; theorems request enough fuel for the loop to reach its answer.
-/

namespace Encephalon

/-- An HTTP request as assembled by the SDK: method, full URL, header list,
query parameters and a flat JSON object body (all values in the scan family's
bodies are strings). -/
structure Request where
  method : String
  url : String
  headers : List (String × String)
  params : List (String × String)
  body : List (String × String)
  deriving DecidableEq

/-- Errors surfaced by the client: a typed HTTP error raised by
`response.raise_for_status()` (carrying status code and body), and the
`TimeoutError` raised by the poll loop (carrying its message).  These are the
two distinct exception types of the SDK's error surface. -/
inductive ClientError where
  | http (status : Nat) (body : String)
  | timeout (msg : String)
  deriving DecidableEq

/-- The scan record returned by the remote service, with the fields the
repository reads (`basic/scan.py` and the flow scripts). -/
structure Scan where
  uuid : String
  study : String
  product : String
  status : String
  report : Option String
  number_of_available_dicoms : Nat
  number_of_dicoms_scanned : Nat
  total_inference_time : Option String
  state : Option String
  deriving DecidableEq

/-- Python truthiness of an `Optional[str]` value: `None` and the empty
string are falsy, every other string is truthy (used by `if product:` and the
query-parameter guards in `basic/scan.py`). -/
def pyTruthy : Option String → Bool
  | none => false
  | some v => v != ""

/-- Python truthiness of an `Optional[int]` value: `None` and `0` are falsy. -/
def pyTruthyNat : Option Nat → Bool
  | none => false
  | some v => v != 0

/-- Request assembled by `create_scan` (basic/scan.py lines 38-56): POST to
`/api/v2/scans/` with Bearer authorization, body `{"study": study_uuid}`,
extended with `"product"` only when the `product` argument is truthy. -/
def create_scan_request (api_url token study_uuid : String)
    (product : Option String) : Request :=
  { method := "POST"
    url := api_url ++ "/api/v2/scans/"
    headers := [("Authorization", "Bearer " ++ token),
                ("Content-Type", "application/json")]
    params := []
    body := [("study", study_uuid)] ++
      (if pyTruthy product then [("product", product.getD "")] else []) }

/-- The function `create_scan`: issue the assembled request against the
remote and return its decoded response (or propagate the HTTP error raised
by `raise_for_status`). -/
def create_scan (remote : Request → Except ClientError Scan)
    (api_url token study_uuid : String) (product : Option String) :
    Except ClientError Scan :=
  remote (create_scan_request api_url token study_uuid product)

/-- Request assembled by `get_scans` (basic/scan.py lines 61-110): GET on the
scan collection with truthiness-gated query parameters. -/
def get_scans_request (api_url token : String) (study_uuid : Option String)
    (page page_size : Option Nat) : Request :=
  { method := "GET"
    url := api_url ++ "/api/v2/scans/"
    headers := [("Authorization", "Bearer " ++ token),
                ("Content-Type", "application/json")]
    params :=
      (if pyTruthy study_uuid then [("study", study_uuid.getD "")] else []) ++
      (if pyTruthyNat page then [("page", toString (page.getD 0))] else []) ++
      (if pyTruthyNat page_size then [("page_size", toString (page_size.getD 0))] else [])
    body := [] }

/-- Request assembled by `get_scan` (basic/scan.py lines 140-151): GET on
`/api/v2/scans/{uuid}/` with Bearer authorization and no body or params. -/
def get_scan_request (api_url token uuid : String) : Request :=
  { method := "GET"
    url := api_url ++ "/api/v2/scans/" ++ uuid ++ "/"
    headers := [("Authorization", "Bearer " ++ token),
                ("Content-Type", "application/json")]
    params := []
    body := [] }

/-- The function `get_scan`: issue the GET and return the decoded scan or the
propagated HTTP error. -/
def get_scan (remote : Request → Except ClientError Scan)
    (api_url token uuid : String) : Except ClientError Scan :=
  remote (get_scan_request api_url token uuid)

/-- Request assembled by `delete_scan` (basic/scan.py lines 180-191). -/
def delete_scan_request (api_url token uuid : String) : Request :=
  { method := "DELETE"
    url := api_url ++ "/api/v2/scans/" ++ uuid ++ "/"
    headers := [("Authorization", "Bearer " ++ token),
                ("Content-Type", "application/json")]
    params := []
    body := [] }

/-- The terminal-status test of the poll loop:
`status in ['COMPLETED', 'FAILED']` (basic/scan.py line 238). -/
def isTerminalStatus (s : String) : Bool :=
  s == "COMPLETED" || s == "FAILED"

/-- Message of the `TimeoutError` raised by `wait_for_scan_completion`
(basic/scan.py line 242). -/
def timeout_message (scan_uuid : String) (timeout : Nat) : String :=
  "Scan " ++ scan_uuid ++ " did not complete within " ++ toString timeout ++ " seconds"

/-- Outcome of a poll-loop run: the returned scan, a raised error, or fuel
exhaustion (an artifact of the embedding — the Python loop is unbounded).
Each outcome records how many status fetches and how many sleeps the loop
performed. -/
inductive PollResult where
  | success (scan : Scan) (fetches : Nat) (sleeps : Nat)
  | raised (e : ClientError) (fetches : Nat) (sleeps : Nat)
  | outOfFuel (fetches : Nat) (sleeps : Nat)
  deriving DecidableEq

/-- One iteration of the `while True` loop of `wait_for_scan_completion`
(basic/scan.py lines 234-244), with the remote indexed by fetch number:
fetch the scan via `get_scan`; return it if its status is terminal; otherwise
raise `TimeoutError` when the elapsed time strictly exceeds `timeout`;
otherwise sleep for `poll_interval` seconds and iterate.  `elapsed` is the
wall-clock seconds since the recorded start (equal to the time slept so far
under the zero-fetch-time idealization). -/
def wait_loop (env : Nat → Request → Except ClientError Scan)
    (api_url token scan_uuid : String) (timeout poll_interval : Nat)
    (fuel elapsed fetches sleeps : Nat) : PollResult :=
  match fuel with
  | 0 => PollResult.outOfFuel fetches sleeps
  | Nat.succ fuel =>
    match get_scan (env fetches) api_url token scan_uuid with
    | Except.error e => PollResult.raised e (fetches + 1) sleeps
    | Except.ok scan =>
      if isTerminalStatus scan.status then
        PollResult.success scan (fetches + 1) sleeps
      else if timeout < elapsed then
        PollResult.raised
          (ClientError.timeout (timeout_message scan_uuid timeout))
          (fetches + 1) sleeps
      else
        wait_loop env api_url token scan_uuid timeout poll_interval fuel
          (elapsed + poll_interval) (fetches + 1) (sleeps + 1)

/-- The function `wait_for_scan_completion` (basic/scan.py lines 195-244,
Python defaults `timeout=300`, `poll_interval=5`): record the start instant
and enter the loop with zero elapsed time, zero fetches and zero sleeps. -/
def wait_for_scan_completion (env : Nat → Request → Except ClientError Scan)
    (api_url token scan_uuid : String) (timeout poll_interval fuel : Nat) :
    PollResult :=
  wait_loop env api_url token scan_uuid timeout poll_interval fuel 0 0 0

/-- The function `get_scan_progress` (basic/scan.py lines 247-276): a pure
pass-through that returns `get_scan(scan_uuid)` unchanged. -/
def get_scan_progress (remote : Request → Except ClientError Scan)
    (api_url token scan_uuid : String) : Except ClientError Scan :=
  get_scan remote api_url token scan_uuid

/-- Modelled from the spec: callers of `get_scan_progress` derive a
completion percentage `number_of_dicoms_scanned / number_of_available_dicoms
* 100`, guarding division by zero — a zero denominator is treated as 0%
progress, not an error.  This derivation appears only as caller guidance in
the `get_scan_progress` docstring (basic/scan.py lines 267-271) and in the
spec, not as a function under src/. -/
def progress_percent (s : Scan) : ℚ :=
  if 0 < s.number_of_available_dicoms then
    (s.number_of_dicoms_scanned : ℚ) / (s.number_of_available_dicoms : ℚ) * 100
  else 0

/-- Modelled from the spec: the remote service's response contract for scan
creation — for every request whose body carries a `"study"` key, the remote
answers with a scan whose `study` field echoes that value and whose `product`
field is the body's `"product"` value, or the default `"ECHOMEASURE"` when
the key is absent.  The remote service is not part of this repository. -/
def RemoteCreateScanContract (remote : Request → Except ClientError Scan) : Prop :=
  ∀ r : Request, ∀ sid : String, r.body.lookup "study" = some sid →
    ∃ s : Scan, remote r = Except.ok s ∧ s.study = sid ∧
      s.product = (r.body.lookup "product").getD "ECHOMEASURE"

/-!
Authorization headers attached by every function of the other resource
modules.  Each definition is the translation of the `headers` dict built by
the Python function of the same name; the study, dicom and scan families use
the `Bearer` scheme and the reports, webhooks and all-studies/measurements
families use the `Token` scheme.
-/

/-- Headers of `get_studies` (basic/study.py lines 39-42). -/
def get_studies_headers (token : String) : List (String × String) :=
  [("Authorization", "Bearer " ++ token), ("Content-Type", "application/json")]

/-- Headers of `create_study` (basic/study.py lines 103-106). -/
def create_study_headers (token : String) : List (String × String) :=
  [("Authorization", "Bearer " ++ token), ("Content-Type", "application/json")]

/-- Headers of `get_study` (basic/study.py lines 151-154). -/
def get_study_headers (token : String) : List (String × String) :=
  [("Authorization", "Bearer " ++ token), ("Content-Type", "application/json")]

/-- Headers of `update_study` (basic/study.py lines 191-194). -/
def update_study_headers (token : String) : List (String × String) :=
  [("Authorization", "Bearer " ++ token), ("Content-Type", "application/json")]

/-- Headers of `delete_study` (basic/study.py lines 233-236). -/
def delete_study_headers (token : String) : List (String × String) :=
  [("Authorization", "Bearer " ++ token), ("Content-Type", "application/json")]

/-- Headers of `upload_dicom` (basic/dicom.py lines 34-36; no Content-Type —
the body is multipart). -/
def upload_dicom_headers (token : String) : List (String × String) :=
  [("Authorization", "Bearer " ++ token)]

/-- Headers of `get_dicoms` (basic/dicom.py lines 84-87). -/
def get_dicoms_headers (token : String) : List (String × String) :=
  [("Authorization", "Bearer " ++ token), ("Content-Type", "application/json")]

/-- Headers of `get_dicom` (basic/dicom.py lines 129-132). -/
def get_dicom_headers (token : String) : List (String × String) :=
  [("Authorization", "Bearer " ++ token), ("Content-Type", "application/json")]

/-- Headers of `download_dicom_file` (basic/dicom.py lines 173-175). -/
def download_dicom_file_headers (token : String) : List (String × String) :=
  [("Authorization", "Bearer " ++ token)]

/-- Headers of `delete_dicom` (basic/dicom.py lines 220-223). -/
def delete_dicom_headers (token : String) : List (String × String) :=
  [("Authorization", "Bearer " ++ token), ("Content-Type", "application/json")]

/-- Headers of `idempotent_dicom_upload` (basic/dicom.py lines 263-265). -/
def idempotent_dicom_upload_headers (token : String) : List (String × String) :=
  [("Authorization", "Bearer " ++ token)]

/-- Headers of `get_reports` (basic/reports.py lines 40-43). -/
def get_reports_headers (token : String) : List (String × String) :=
  [("Authorization", "Token " ++ token), ("Content-Type", "application/json")]

/-- Headers of `get_report` (basic/reports.py lines 108-111). -/
def get_report_headers (token : String) : List (String × String) :=
  [("Authorization", "Token " ++ token), ("Content-Type", "application/json")]

/-- Headers of `get_report_html` (basic/reports.py lines 147-150). -/
def get_report_html_headers (token : String) : List (String × String) :=
  [("Authorization", "Token " ++ token), ("Content-Type", "application/json")]

/-- Headers of `get_echogpt_responses` (basic/reports.py lines 172-175). -/
def get_echogpt_responses_headers (token : String) : List (String × String) :=
  [("Authorization", "Token " ++ token), ("Content-Type", "application/json")]

/-- Headers of `get_echogpt_response` (basic/reports.py lines 196-199). -/
def get_echogpt_response_headers (token : String) : List (String × String) :=
  [("Authorization", "Token " ++ token), ("Content-Type", "application/json")]

/-- Headers of `create_user_measurement` (basic/reports.py lines 267-270). -/
def create_user_measurement_headers (token : String) : List (String × String) :=
  [("Authorization", "Token " ++ token), ("Content-Type", "application/json")]

/-- Headers of `get_api_version` (basic/reports.py lines 322-325). -/
def get_api_version_headers (token : String) : List (String × String) :=
  [("Authorization", "Token " ++ token), ("Content-Type", "application/json")]

/-- Headers of `create_webhook` (basic/webhooks.py lines 33-36). -/
def create_webhook_headers (token : String) : List (String × String) :=
  [("Authorization", "Token " ++ token), ("Content-Type", "application/json")]

/-- Headers of `get_webhooks` (basic/webhooks.py lines 80-83). -/
def get_webhooks_headers (token : String) : List (String × String) :=
  [("Authorization", "Token " ++ token), ("Content-Type", "application/json")]

/-- Headers of `get_webhook` (basic/webhooks.py lines 126-129). -/
def get_webhook_headers (token : String) : List (String × String) :=
  [("Authorization", "Token " ++ token), ("Content-Type", "application/json")]

/-- Headers of `update_webhook` (basic/webhooks.py lines 167-170). -/
def update_webhook_headers (token : String) : List (String × String) :=
  [("Authorization", "Token " ++ token), ("Content-Type", "application/json")]

/-- Headers of `delete_webhook` (basic/webhooks.py lines 212-215). -/
def delete_webhook_headers (token : String) : List (String × String) :=
  [("Authorization", "Token " ++ token), ("Content-Type", "application/json")]

/-- Headers of `get_all_studies_with_measurements` (basic/all_studies.py
lines 74-77). -/
def get_all_studies_with_measurements_headers (token : String) : List (String × String) :=
  [("Authorization", "Token " ++ token), ("Content-Type", "application/json")]

/-- Headers of `get_study_with_measurements` (basic/all_studies.py lines
155-158). -/
def get_study_with_measurements_headers (token : String) : List (String × String) :=
  [("Authorization", "Token " ++ token), ("Content-Type", "application/json")]

/-- Headers of `get_study_metrics` (basic/all_studies.py lines 201-204). -/
def get_study_metrics_headers (token : String) : List (String × String) :=
  [("Authorization", "Token " ++ token), ("Content-Type", "application/json")]

/-- Headers of `get_filter_metadata` (basic/all_studies.py lines 249-252). -/
def get_filter_metadata_headers (token : String) : List (String × String) :=
  [("Authorization", "Token " ++ token), ("Content-Type", "application/json")]

/-!
Webhook receiver: embedding of `handle_webhook_notification` from
`flows/create_scan_and_retrieve_inference_results_with_webhooks.py`.
-/

/-- A decoded JSON value, as produced by `json.loads`. -/
inductive Json where
  | null
  | bool (b : Bool)
  | num (n : Int)
  | str (s : String)
  | arr (elems : List Json)
  | obj (fields : List (String × Json))

/-- Python equality of a decoded JSON value with a string literal, as in
`status == 'COMPLETED'`: true exactly when the value is that string. -/
def isStr (j : Json) (s : String) : Bool :=
  match j with
  | Json.str t => t == s
  | _ => false

/-- Python truthiness of a decoded JSON value, as in `if report_uuid:`. -/
def jsonTruthy : Json → Bool
  | Json.null => false
  | Json.bool b => b
  | Json.num n => n != 0
  | Json.str s => s != ""
  | Json.arr l => !l.isEmpty
  | Json.obj l => !l.isEmpty

/-- The Python exceptions `handle_webhook_notification` can raise:
`json.JSONDecodeError` (re-raised after being caught), `KeyError` for a
missing dict key (re-raised after being caught), and the `TypeError`
respectively `AttributeError` raised uncaught when the payload or the report
value is not a JSON object. -/
inductive PyError where
  | jsonDecodeError
  | keyError (k : String)
  | typeError
  | attributeError
  deriving DecidableEq

/-- The dict returned by `handle_webhook_notification`: the echoed
`scan_uuid` value, the result `status` value, and the `report_uuid` entry
present only on the success path. -/
structure HandlerResult where
  scan_uuid : Json
  status : Json
  report_uuid : Option Json

/-- A call the handler makes against the remote collaborators: fetching the
full report (`get_report`) or the scan details (`get_scan`). -/
inductive ApiCall where
  | fetchReport (u : Json)
  | fetchScan (u : Json)

/-- The function `handle_webhook_notification` (flow file lines 127-218).
The input is the decoded payload (`none` models a body `json.loads` rejects);
the output is the returned dict or the raised exception, paired with the log
of collaborator calls the handler performed.  In the source the results of
`get_report` and `get_scan` feed only `print` statements, never the returned
dict, so the model records the calls without consuming their responses (and,
like the claims it settles, treats those calls as succeeding). -/
def handle_webhook_notification (payload : Option Json) :
    Except PyError HandlerResult × List ApiCall :=
  match payload with
  | none => (Except.error PyError.jsonDecodeError, [])
  | some (Json.obj fields) =>
    match fields.lookup "scan_id" with
    | none => (Except.error (PyError.keyError "scan_id"), [])
    | some scan_uuid =>
      match fields.lookup "status" with
      | none => (Except.error (PyError.keyError "status"), [])
      | some status =>
        if isStr status "COMPLETED" then
          match (fields.lookup "report").getD (Json.obj []) with
          | Json.obj rfields =>
            match rfields.lookup "uuid" with
            | some ru =>
              if jsonTruthy ru then
                (Except.ok ⟨scan_uuid, Json.str "SUCCESS", some ru⟩,
                 [ApiCall.fetchReport ru])
              else
                (Except.ok ⟨scan_uuid, Json.str "NO_REPORT", none⟩, [])
            | none => (Except.ok ⟨scan_uuid, Json.str "NO_REPORT", none⟩, [])
          | _ => (Except.error PyError.attributeError, [])
        else if isStr status "FAILED" then
          (Except.ok ⟨scan_uuid, Json.str "FAILED", none⟩,
           [ApiCall.fetchScan scan_uuid])
        else
          (Except.ok ⟨scan_uuid, status, none⟩, [])
  | some _ => (Except.error PyError.typeError, [])

/-!
Concrete fixtures used by the witness theorems.
-/

/-- A scan in the non-terminal initial state. -/
def pendingScan : Scan :=
  { uuid := "scan-1", study := "study-1", product := "ECHOMEASURE"
    status := "PENDING", report := none
    number_of_available_dicoms := 10, number_of_dicoms_scanned := 0
    total_inference_time := none, state := none }

/-- The same scan observed in the processing state. -/
def startedScan : Scan :=
  { pendingScan with status := "STARTED", number_of_dicoms_scanned := 4 }

/-- The same scan observed in the terminal success state. -/
def completedScan : Scan :=
  { pendingScan with status := "COMPLETED", report := some "report-9"
                     number_of_dicoms_scanned := 10
                     total_inference_time := some "42s" }

/-- A remote that answers every fetch with the pending scan. -/
def pendEnv : Nat → Request → Except ClientError Scan :=
  fun _ _ => Except.ok pendingScan

/-- A remote whose successive fetches observe PENDING, then STARTED, then
COMPLETED — the spec's concrete polling scenario. -/
def seqEnv : Nat → Request → Except ClientError Scan :=
  fun n _ =>
    if n = 0 then Except.ok pendingScan
    else if n = 1 then Except.ok startedScan
    else Except.ok completedScan

/-- A remote obeying the scan-creation contract: it echoes the request
body's study and product into a fresh pending scan with no dicoms yet. -/
def demoRemote : Request → Except ClientError Scan :=
  fun r =>
    Except.ok
      { uuid := "scan-1"
        study := (r.body.lookup "study").getD ""
        product := (r.body.lookup "product").getD "ECHOMEASURE"
        status := "PENDING", report := none
        number_of_available_dicoms := 0, number_of_dicoms_scanned := 0
        total_inference_time := none, state := none }

/-- The scan `demoRemote` returns to a request whose body is empty. -/
def demoEmptyScan : Scan :=
  { uuid := "scan-1", study := "", product := "ECHOMEASURE"
    status := "PENDING", report := none
    number_of_available_dicoms := 0, number_of_dicoms_scanned := 0
    total_inference_time := none, state := none }

/-!
Poll-loop lemmas.
-/

/-- Loop invariant for a run that meets its first terminal status at fetch
index `i`: entered with `k` fetches and `k` sleeps already performed
(`k ≤ i`) and elapsed time `k * poll_interval`, the loop returns the scan of
fetch `i` after `i + 1` fetches and `i` sleeps, provided every earlier fetch
was non-terminal, every earlier deadline check was within budget, and fuel
suffices. -/
theorem wait_loop_first_terminal
    (env : Nat → Request → Except ClientError Scan) (api_url token uuid : String)
    (timeout poll_interval i : Nat) (s : Scan)
    (hterm : get_scan (env i) api_url token uuid = Except.ok s)
    (hstat : isTerminalStatus s.status = true)
    (hpre : ∀ j, j < i → ∃ t, get_scan (env j) api_url token uuid = Except.ok t ∧
      isTerminalStatus t.status = false)
    (hwithin : ∀ j, j < i → j * poll_interval ≤ timeout) :
    ∀ fuel k, k ≤ i → i < k + fuel →
      wait_loop env api_url token uuid timeout poll_interval fuel
        (k * poll_interval) k k = PollResult.success s (i + 1) i := by
  intro fuel
  induction fuel with
  | zero => intro k hk hlt; omega
  | succ fuel ih =>
    intro k hk hlt
    rcases Nat.eq_or_lt_of_le hk with heq | hki
    · subst heq
      simp only [wait_loop, hterm, hstat, if_true]
    · obtain ⟨t, hok, hnt⟩ := hpre k hki
      have hcond : ¬ (isTerminalStatus t.status = true) := by simp [hnt]
      have hts : ¬ (timeout < k * poll_interval) := Nat.not_lt.mpr (hwithin k hki)
      simp only [wait_loop, hok]
      rw [if_neg hcond, if_neg hts]
      have hmul : k * poll_interval + poll_interval = (k + 1) * poll_interval :=
        (Nat.succ_mul k poll_interval).symm
      rw [hmul]
      exact ih (k + 1) hki (by omega)

/-- Loop invariant for a run in which every fetch observes a non-terminal
status: entered with `k` fetches and sleeps already performed and elapsed
time `k * poll_interval`, the loop raises the timeout error after exactly
`timeout / poll_interval + 2` fetches and `timeout / poll_interval + 1`
sleeps. -/
theorem wait_loop_nonterminal_timeout
    (env : Nat → Request → Except ClientError Scan) (api_url token uuid : String)
    (timeout poll_interval : Nat) (hp : 0 < poll_interval)
    (hnt : ∀ n, ∃ t, get_scan (env n) api_url token uuid = Except.ok t ∧
      isTerminalStatus t.status = false) :
    ∀ fuel k, k ≤ timeout / poll_interval + 1 →
      timeout / poll_interval + 2 ≤ k + fuel →
      wait_loop env api_url token uuid timeout poll_interval fuel
        (k * poll_interval) k k =
      PollResult.raised (ClientError.timeout (timeout_message uuid timeout))
        (timeout / poll_interval + 2) (timeout / poll_interval + 1) := by
  intro fuel
  induction fuel with
  | zero => intro k h1 h2; omega
  | succ fuel ih =>
    intro k h1 h2
    obtain ⟨t, hok, hnt'⟩ := hnt k
    have hcond : ¬ (isTerminalStatus t.status = true) := by simp [hnt']
    rcases Nat.eq_or_lt_of_le h1 with heq | hlt
    · subst heq
      have hgt : timeout < (timeout / poll_interval + 1) * poll_interval :=
        (Nat.div_lt_iff_lt_mul hp).mp (Nat.lt_succ_self _)
      simp only [wait_loop, hok]
      rw [if_neg hcond, if_pos hgt]
    · have hle : k * poll_interval ≤ timeout := by
        calc k * poll_interval ≤ (timeout / poll_interval) * poll_interval :=
              Nat.mul_le_mul_right _ (by omega)
          _ ≤ timeout := Nat.div_mul_le_self _ _
      simp only [wait_loop, hok]
      rw [if_neg hcond, if_neg (Nat.not_lt.mpr hle)]
      have hmul : k * poll_interval + poll_interval = (k + 1) * poll_interval :=
        (Nat.succ_mul k poll_interval).symm
      rw [hmul]
      exact ih (k + 1) (by omega) (by omega)

/-!
Claims about the poll loop.
-/

/-- C1: if the statuses observed by the successive fetches contain a
terminal one — first at fetch index `i`, every earlier fetch non-terminal
and every earlier deadline check within the timeout budget — then
`wait_for_scan_completion` returns the scan of that first terminal fetch,
after `i + 1` fetches and exactly `i` sleeps of `poll_interval` (one between
each pair of consecutive fetches, none after the terminal fetch; in
particular zero sleeps when the initial fetch is terminal). -/
theorem wait_for_scan_completion_first_terminal
    (env : Nat → Request → Except ClientError Scan) (api_url token uuid : String)
    (timeout poll_interval fuel i : Nat) (s : Scan)
    (hterm : get_scan (env i) api_url token uuid = Except.ok s)
    (hstat : isTerminalStatus s.status = true)
    (hpre : ∀ j, j < i → ∃ t, get_scan (env j) api_url token uuid = Except.ok t ∧
      isTerminalStatus t.status = false)
    (hwithin : ∀ j, j < i → j * poll_interval ≤ timeout)
    (hfuel : i < fuel) :
    wait_for_scan_completion env api_url token uuid timeout poll_interval fuel =
      PollResult.success s (i + 1) i := by
  have h := wait_loop_first_terminal env api_url token uuid timeout poll_interval
    i s hterm hstat hpre hwithin fuel 0 (Nat.zero_le _) (by omega)
  rw [Nat.zero_mul] at h
  simpa [wait_for_scan_completion] using h

/-- Witness for C1, realizing the spec's concrete scenario: against a remote
whose fetches observe PENDING, STARTED, COMPLETED, polling scan-1 with
timeout 30 and poll interval 5 returns the COMPLETED scan (report
report-9) after 3 fetches and 2 sleeps. -/
theorem wait_for_scan_completion_first_terminal_witness :
    wait_for_scan_completion seqEnv "https://api.example.com" "tok" "scan-1" 30 5 10 =
      PollResult.success completedScan 3 2 ∧
    completedScan.status = "COMPLETED" ∧ completedScan.report = some "report-9" := by
  refine ⟨?_, rfl, rfl⟩
  exact wait_for_scan_completion_first_terminal seqEnv "https://api.example.com"
    "tok" "scan-1" 30 5 10 2 completedScan rfl rfl
    (fun j hj => by
      interval_cases j
      · exact ⟨pendingScan, rfl, rfl⟩
      · exact ⟨startedScan, rfl, rfl⟩)
    (fun j hj => by omega)
    (by omega)

/-- C2, counterexample to the claimed fetch count: with every fetch
returning PENDING, timeout 12 and poll interval 5, the loop performs 4
fetches before raising the timeout error, not floor(12 / 5) + 1 = 3 — the
strict post-fetch deadline check admits one more fetch than the claim
states. -/
theorem wait_for_scan_completion_fetch_count_cex :
    wait_for_scan_completion pendEnv "https://api.example.com" "tok" "scan-1" 12 5 10 =
      PollResult.raised
        (ClientError.timeout "Scan scan-1 did not complete within 12 seconds") 4 3 ∧
    4 ≠ 12 / 5 + 1 := by
  constructor
  · rfl
  · decide

/-- C2 (amended): if every fetch observes a non-terminal status, the loop
performs exactly floor(timeout / pollInterval) + 2 fetches before raising
the timeout error (under the zero-fetch-time idealization: the first fetch
happens at elapsed time 0 and the strict elapsed-time check runs after each
fetch), with one sleep fewer than fetches. -/
theorem wait_for_scan_completion_fetch_count
    (env : Nat → Request → Except ClientError Scan) (api_url token uuid : String)
    (timeout poll_interval fuel : Nat) (hp : 0 < poll_interval)
    (hnt : ∀ n, ∃ t, get_scan (env n) api_url token uuid = Except.ok t ∧
      isTerminalStatus t.status = false)
    (hfuel : timeout / poll_interval + 2 ≤ fuel) :
    wait_for_scan_completion env api_url token uuid timeout poll_interval fuel =
      PollResult.raised (ClientError.timeout (timeout_message uuid timeout))
        (timeout / poll_interval + 2) (timeout / poll_interval + 1) := by
  have h := wait_loop_nonterminal_timeout env api_url token uuid timeout
    poll_interval hp hnt fuel 0 (Nat.zero_le _) (by omega)
  rw [Nat.zero_mul] at h
  simpa [wait_for_scan_completion] using h

/-- Witness for the amended C2: an always-PENDING remote with timeout 7 and
poll interval 3 yields the timeout error after 7 / 3 + 2 = 4 fetches and 3
sleeps. -/
theorem wait_for_scan_completion_fetch_count_witness :
    wait_for_scan_completion pendEnv "https://api.example.com" "tok" "scan-1" 7 3 6 =
      PollResult.raised (ClientError.timeout (timeout_message "scan-1" 7)) 4 3 := by
  have h := wait_for_scan_completion_fetch_count pendEnv "https://api.example.com"
    "tok" "scan-1" 7 3 6 (by decide) (fun n => ⟨pendingScan, rfl, rfl⟩) (by decide)
  simpa using h

/-- C3: whenever every fetch observes a non-terminal status (for every
timeout, including 0), `wait_for_scan_completion` raises the timeout error
only after at least one status fetch; the raised error is the timeout
constructor, distinct from every HTTP error, and its message names the scan
id and the configured timeout value. -/
theorem wait_for_scan_completion_timeout_error
    (env : Nat → Request → Except ClientError Scan) (api_url token uuid : String)
    (timeout poll_interval fuel : Nat) (hp : 0 < poll_interval)
    (hnt : ∀ n, ∃ t, get_scan (env n) api_url token uuid = Except.ok t ∧
      isTerminalStatus t.status = false)
    (hfuel : timeout / poll_interval + 2 ≤ fuel) :
    ∃ msg fetches sleeps,
      wait_for_scan_completion env api_url token uuid timeout poll_interval fuel =
        PollResult.raised (ClientError.timeout msg) fetches sleeps ∧
      1 ≤ fetches ∧
      (∃ a b, msg = a ++ uuid ++ b) ∧
      (∃ c d, msg = c ++ toString timeout ++ d) ∧
      (∀ code body, ClientError.timeout msg ≠ ClientError.http code body) := by
  refine ⟨timeout_message uuid timeout, timeout / poll_interval + 2,
    timeout / poll_interval + 1, ?_, Nat.succ_le_succ (Nat.zero_le _), ?_, ?_, ?_⟩
  · have h := wait_loop_nonterminal_timeout env api_url token uuid timeout
      poll_interval hp hnt fuel 0 (Nat.zero_le _) (by omega)
    rw [Nat.zero_mul] at h
    simpa [wait_for_scan_completion] using h
  · exact ⟨"Scan ", " did not complete within " ++ toString timeout ++ " seconds",
      by simp [timeout_message, String.append_assoc]⟩
  · exact ⟨"Scan " ++ uuid ++ " did not complete within ", " seconds",
      by simp [timeout_message, String.append_assoc]⟩
  · intro code body h
    cases h

/-- Witness for C3: an always-PENDING remote with timeout 10 and poll
interval 5 raises a timeout error whose message references scan-1 and the
value 10. -/
theorem wait_for_scan_completion_timeout_error_witness :
    ∃ msg fetches sleeps,
      wait_for_scan_completion pendEnv "https://api.example.com" "tok" "scan-1" 10 5 12 =
        PollResult.raised (ClientError.timeout msg) fetches sleeps ∧
      1 ≤ fetches ∧
      (∃ a b, msg = a ++ "scan-1" ++ b) ∧
      (∃ c d, msg = c ++ toString 10 ++ d) ∧
      (∀ code body, ClientError.timeout msg ≠ ClientError.http code body) :=
  wait_for_scan_completion_timeout_error pendEnv "https://api.example.com" "tok"
    "scan-1" 10 5 12 (by decide) (fun n => ⟨pendingScan, rfl, rfl⟩) (by decide)

/-!
Claims about request construction and the progress pass-through.
-/

/-- The demonstration remote obeys the scan-creation contract. -/
theorem demoRemote_contract : RemoteCreateScanContract demoRemote := by
  intro r sid h
  exact ⟨_, rfl, by simp [h], rfl⟩

/-- C4: `create_scan` POSTs to `/api/v2/scans/` with a body mapping "study"
to the study id and carrying a "product" key only when a product was
supplied; against any remote obeying the spec's response contract, the
returned scan's study equals the study id and its product equals the
supplied product, or the default ECHOMEASURE when omitted (valid products
are non-empty). -/
theorem create_scan_request_and_response
    (remote : Request → Except ClientError Scan)
    (api_url token study_uuid : String) (product : Option String)
    (hc : RemoteCreateScanContract remote)
    (hvalid : product = none ∨ ∃ p, product = some p ∧ p ≠ "") :
    (create_scan_request api_url token study_uuid product).method = "POST" ∧
    (create_scan_request api_url token study_uuid product).url =
      api_url ++ "/api/v2/scans/" ∧
    (create_scan_request api_url token study_uuid product).body.lookup "study" =
      some study_uuid ∧
    (∀ q, (create_scan_request api_url token study_uuid product).body.lookup "product" =
      some q → product = some q) ∧
    ∃ s, create_scan remote api_url token study_uuid product = Except.ok s ∧
      s.study = study_uuid ∧ s.product = product.getD "ECHOMEASURE" := by
  rcases hvalid with rfl | ⟨p, rfl, hp⟩
  · have hstudy : (create_scan_request api_url token study_uuid none).body.lookup "study"
        = some study_uuid := by simp [create_scan_request, pyTruthy, List.lookup]
    have hprod : (create_scan_request api_url token study_uuid none).body.lookup "product"
        = none := by simp [create_scan_request, pyTruthy, List.lookup]
    obtain ⟨s, hok, hs, hsp⟩ := hc _ _ hstudy
    refine ⟨rfl, rfl, hstudy, ?_, s, hok, hs, ?_⟩
    · intro q hq
      rw [hprod] at hq
      cases hq
    · rw [hsp, hprod]
  · have htr : pyTruthy (some p) = true := by simp [pyTruthy, hp]
    have hstudy : (create_scan_request api_url token study_uuid (some p)).body.lookup "study"
        = some study_uuid := by simp [create_scan_request, htr, List.lookup]
    have hprod : (create_scan_request api_url token study_uuid (some p)).body.lookup "product"
        = some p := by simp [create_scan_request, htr, List.lookup]
    obtain ⟨s, hok, hs, hsp⟩ := hc _ _ hstudy
    refine ⟨rfl, rfl, hstudy, ?_, s, hok, hs, ?_⟩
    · intro q hq
      rw [hprod] at hq
      exact hq
    · rw [hsp, hprod]

/-- Witness for C4: creating a scan for study-1 with product CARDIOVISION
against the demonstration remote returns a scan echoing both. -/
theorem create_scan_request_and_response_witness :
    ∃ s, create_scan demoRemote "https://api.example.com" "tok" "study-1"
        (some "CARDIOVISION") = Except.ok s ∧
      s.study = "study-1" ∧ s.product = "CARDIOVISION" := by
  have h := create_scan_request_and_response demoRemote "https://api.example.com"
    "tok" "study-1" (some "CARDIOVISION") demoRemote_contract
    (Or.inr ⟨"CARDIOVISION", rfl, by decide⟩)
  simpa using h.2.2.2.2

/-- C5: `get_scan_progress` is extensionally equal to `get_scan` — it issues
the same single authenticated GET to `/api/v2/scans/{uuid}/` and returns the
identical result — and two invocations whose remotes answer that request
identically return identical results. -/
theorem get_scan_progress_pass_through
    (remote remote2 : Request → Except ClientError Scan)
    (api_url token uuid : String)
    (hsame : remote2 (get_scan_request api_url token uuid) =
      remote (get_scan_request api_url token uuid)) :
    get_scan_progress remote api_url token uuid = get_scan remote api_url token uuid ∧
    get_scan_progress remote api_url token uuid =
      remote (get_scan_request api_url token uuid) ∧
    (get_scan_request api_url token uuid).method = "GET" ∧
    (get_scan_request api_url token uuid).url =
      api_url ++ "/api/v2/scans/" ++ uuid ++ "/" ∧
    ("Authorization", "Bearer " ++ token) ∈ (get_scan_request api_url token uuid).headers ∧
    get_scan_progress remote2 api_url token uuid =
      get_scan_progress remote api_url token uuid :=
  ⟨rfl, rfl, rfl, rfl, by simp [get_scan_request], hsame⟩

/-- Witness for C5, instantiated at the demonstration remote. -/
theorem get_scan_progress_pass_through_witness :
    get_scan_progress demoRemote "https://api.example.com" "tok" "scan-1" =
      get_scan demoRemote "https://api.example.com" "tok" "scan-1" ∧
    get_scan_progress demoRemote "https://api.example.com" "tok" "scan-1" =
      demoRemote (get_scan_request "https://api.example.com" "tok" "scan-1") ∧
    (get_scan_request "https://api.example.com" "tok" "scan-1").method = "GET" ∧
    (get_scan_request "https://api.example.com" "tok" "scan-1").url =
      "https://api.example.com" ++ "/api/v2/scans/" ++ "scan-1" ++ "/" ∧
    ("Authorization", "Bearer " ++ "tok") ∈
      (get_scan_request "https://api.example.com" "tok" "scan-1").headers ∧
    get_scan_progress demoRemote "https://api.example.com" "tok" "scan-1" =
      get_scan_progress demoRemote "https://api.example.com" "tok" "scan-1" :=
  get_scan_progress_pass_through demoRemote demoRemote "https://api.example.com"
    "tok" "scan-1" rfl

/-- C6: the completion-percentage derivation is total — for any scan
returned by `get_scan_progress` whose `number_of_available_dicoms` is 0, the
derived progress is 0, not a division error. -/
theorem progress_percent_total_at_zero
    (remote : Request → Except ClientError Scan)
    (api_url token uuid : String) (s : Scan)
    (_hs : get_scan_progress remote api_url token uuid = Except.ok s)
    (hz : s.number_of_available_dicoms = 0) :
    progress_percent s = 0 := by
  simp [progress_percent, hz]

/-- Witness for C6: the demonstration remote returns a scan with zero
available dicoms, whose derived progress is 0. -/
theorem progress_percent_total_at_zero_witness :
    progress_percent demoEmptyScan = 0 :=
  progress_percent_total_at_zero demoRemote "https://api.example.com" "tok"
    "scan-1" demoEmptyScan rfl rfl

/-- C9: supplying the empty string as product builds the same request as
omitting the product entirely — the body is exactly the study mapping, with
no "product" key. -/
theorem create_scan_empty_product_body (api_url token study_uuid : String) :
    create_scan_request api_url token study_uuid (some "") =
      create_scan_request api_url token study_uuid none ∧
    (create_scan_request api_url token study_uuid (some "")).body =
      [("study", study_uuid)] ∧
    (create_scan_request api_url token study_uuid (some "")).body.lookup "product" =
      none :=
  ⟨rfl, rfl, rfl⟩

/-- C8: every function of the study, dicom and scan families attaches
Authorization Bearer token, and every function of the reports, webhooks and
all-studies/measurements families attaches Authorization Token token. -/
theorem authorization_scheme_split (token api_url study_uuid uuid : String)
    (product study_filter : Option String) (page page_size : Option Nat) :
    (create_scan_request api_url token study_uuid product).headers.lookup "Authorization" = some ("Bearer " ++ token) ∧
    (get_scans_request api_url token study_filter page page_size).headers.lookup "Authorization" = some ("Bearer " ++ token) ∧
    (get_scan_request api_url token uuid).headers.lookup "Authorization" = some ("Bearer " ++ token) ∧
    (delete_scan_request api_url token uuid).headers.lookup "Authorization" = some ("Bearer " ++ token) ∧
    (get_studies_headers token).lookup "Authorization" = some ("Bearer " ++ token) ∧
    (create_study_headers token).lookup "Authorization" = some ("Bearer " ++ token) ∧
    (get_study_headers token).lookup "Authorization" = some ("Bearer " ++ token) ∧
    (update_study_headers token).lookup "Authorization" = some ("Bearer " ++ token) ∧
    (delete_study_headers token).lookup "Authorization" = some ("Bearer " ++ token) ∧
    (upload_dicom_headers token).lookup "Authorization" = some ("Bearer " ++ token) ∧
    (get_dicoms_headers token).lookup "Authorization" = some ("Bearer " ++ token) ∧
    (get_dicom_headers token).lookup "Authorization" = some ("Bearer " ++ token) ∧
    (download_dicom_file_headers token).lookup "Authorization" = some ("Bearer " ++ token) ∧
    (delete_dicom_headers token).lookup "Authorization" = some ("Bearer " ++ token) ∧
    (idempotent_dicom_upload_headers token).lookup "Authorization" = some ("Bearer " ++ token) ∧
    (get_reports_headers token).lookup "Authorization" = some ("Token " ++ token) ∧
    (get_report_headers token).lookup "Authorization" = some ("Token " ++ token) ∧
    (get_report_html_headers token).lookup "Authorization" = some ("Token " ++ token) ∧
    (get_echogpt_responses_headers token).lookup "Authorization" = some ("Token " ++ token) ∧
    (get_echogpt_response_headers token).lookup "Authorization" = some ("Token " ++ token) ∧
    (create_user_measurement_headers token).lookup "Authorization" = some ("Token " ++ token) ∧
    (get_api_version_headers token).lookup "Authorization" = some ("Token " ++ token) ∧
    (create_webhook_headers token).lookup "Authorization" = some ("Token " ++ token) ∧
    (get_webhooks_headers token).lookup "Authorization" = some ("Token " ++ token) ∧
    (get_webhook_headers token).lookup "Authorization" = some ("Token " ++ token) ∧
    (update_webhook_headers token).lookup "Authorization" = some ("Token " ++ token) ∧
    (delete_webhook_headers token).lookup "Authorization" = some ("Token " ++ token) ∧
    (get_all_studies_with_measurements_headers token).lookup "Authorization" = some ("Token " ++ token) ∧
    (get_study_with_measurements_headers token).lookup "Authorization" = some ("Token " ++ token) ∧
    (get_study_metrics_headers token).lookup "Authorization" = some ("Token " ++ token) ∧
    (get_filter_metadata_headers token).lookup "Authorization" = some ("Token " ++ token) :=
  ⟨rfl, rfl, rfl, rfl, rfl, rfl, rfl, rfl, rfl, rfl, rfl, rfl, rfl, rfl, rfl, rfl,
   rfl, rfl, rfl, rfl, rfl, rfl, rfl, rfl, rfl, rfl, rfl, rfl, rfl, rfl, rfl⟩

/-!
Claims about the webhook receiver.
-/

/-- C7: the webhook handler raises on undecodable JSON and on payloads
missing the scan_id or status field, in each case with no collaborator call
performed; and on every well-formed payload whose status is neither
COMPLETED nor FAILED it returns normally, echoing the scan id and the
unexpected status, again with no collaborator call. -/
theorem handle_webhook_rejects_malformed_and_tolerates_unexpected :
    (handle_webhook_notification none = (Except.error PyError.jsonDecodeError, [])) ∧
    (∀ fields : List (String × Json), fields.lookup "scan_id" = none →
      handle_webhook_notification (some (Json.obj fields)) =
        (Except.error (PyError.keyError "scan_id"), [])) ∧
    (∀ (fields : List (String × Json)) (sid : Json),
      fields.lookup "scan_id" = some sid → fields.lookup "status" = none →
      handle_webhook_notification (some (Json.obj fields)) =
        (Except.error (PyError.keyError "status"), [])) ∧
    (∀ (fields : List (String × Json)) (sid st : Json),
      fields.lookup "scan_id" = some sid → fields.lookup "status" = some st →
      isStr st "COMPLETED" = false → isStr st "FAILED" = false →
      handle_webhook_notification (some (Json.obj fields)) =
        (Except.ok ⟨sid, st, none⟩, [])) := by
  refine ⟨rfl, ?_, ?_, ?_⟩
  · intro fields h
    simp [handle_webhook_notification, h]
  · intro fields sid h1 h2
    simp [handle_webhook_notification, h1, h2]
  · intro fields sid st h1 h2 h3 h4
    simp [handle_webhook_notification, h1, h2, h3, h4]

/-- Witness for C7: concrete malformed payloads are rejected with no
collaborator call, and a PENDING status is echoed back without raising. -/
theorem handle_webhook_rejects_malformed_witness :
    handle_webhook_notification none = (Except.error PyError.jsonDecodeError, []) ∧
    handle_webhook_notification (some (Json.obj [("status", Json.str "COMPLETED")])) =
      (Except.error (PyError.keyError "scan_id"), []) ∧
    handle_webhook_notification (some (Json.obj [("scan_id", Json.str "scan-1")])) =
      (Except.error (PyError.keyError "status"), []) ∧
    handle_webhook_notification (some (Json.obj
        [("scan_id", Json.str "scan-1"), ("status", Json.str "PENDING")])) =
      (Except.ok ⟨Json.str "scan-1", Json.str "PENDING", none⟩, []) := by
  have h := handle_webhook_rejects_malformed_and_tolerates_unexpected
  exact ⟨h.1, h.2.1 _ rfl, h.2.2.1 _ (Json.str "scan-1") rfl rfl,
    h.2.2.2 _ (Json.str "scan-1") (Json.str "PENDING") rfl rfl rfl rfl⟩

/-- C10: on a well-formed COMPLETED payload whose report is absent or whose
report object lacks a uuid field, the handler returns normally with status
NO_REPORT and the scan id, performing no report fetch and raising no
error. -/
theorem handle_webhook_completed_no_report
    (fields : List (String × Json)) (sid : Json)
    (h1 : fields.lookup "scan_id" = some sid)
    (h2 : fields.lookup "status" = some (Json.str "COMPLETED"))
    (h3 : fields.lookup "report" = none ∨
      ∃ rfields, fields.lookup "report" = some (Json.obj rfields) ∧
        rfields.lookup "uuid" = none) :
    handle_webhook_notification (some (Json.obj fields)) =
      (Except.ok ⟨sid, Json.str "NO_REPORT", none⟩, []) := by
  rcases h3 with h3 | ⟨rfields, h3, h4⟩
  · simp [handle_webhook_notification, h1, h2, h3, isStr]
  · simp [handle_webhook_notification, h1, h2, h3, h4, isStr]

/-- Witness for C10: a COMPLETED payload with no report key yields
NO_REPORT with no collaborator call. -/
theorem handle_webhook_completed_no_report_witness :
    handle_webhook_notification (some (Json.obj
        [("scan_id", Json.str "scan-1"), ("status", Json.str "COMPLETED")])) =
      (Except.ok ⟨Json.str "scan-1", Json.str "NO_REPORT", none⟩, []) :=
  handle_webhook_completed_no_report _ _ rfl rfl (Or.inl rfl)

end Encephalon
